import Mathlib

/-!
Shallow embedding of `src/biblioteca_v2.py` (the corrected library system).

Modelling conventions:
* Python floats that hold currency amounts (fees, the 50.0 blocking
  threshold) are modelled as rationals; every amount occurring in the
  program is a multiple of 0.5, so this is exact.
* `datetime` values are modelled as an integer number of seconds;
  `timedelta(days = n)` is addition of `n * 86400` seconds, and the
  `.days` attribute of a difference of datetimes is floor division by
  86400 (Python normalises timedeltas so that `.days` floors).
* Python `dict`s are modelled as association lists in insertion order;
  objects shared between a loan and the registry are modelled by storing
  the registry key in the loan and writing updated objects back.
* Each distinct `raise` site of the source becomes one constructor of a
  cause type, grouped under the Python exception class that is raised.
-/

/-- Enumeration of user categories (`TipoUsuario`). -/
inductive TipoUsuario where
  | estudante
  | professor
deriving DecidableEq, Repr

/-- Enumeration of user standings (`StatusUsuario`). -/
inductive StatusUsuario where
  | ativo
  | bloqueado
deriving DecidableEq, Repr

/-- Causes of `ISBNInvalidoError`, one per raise site in `_validar_isbn`. -/
inductive CausaISBN where
  | vazio
  | naoDigitos
  | tamanho
deriving DecidableEq, Repr

/-- Causes of Python `ValueError`, one per raise site in the source. -/
inductive CausaValor where
  | tituloVazio
  | autorVazio
  | userIdVazio
  | nomeVazio
  | multaNegativa
  | livroJaExiste
  | usuarioJaExiste
  | naoElegivel
  | indisponivel
deriving DecidableEq, Repr

/-- The exceptions of the source, by Python exception class. -/
inductive BibError where
  | isbnInvalido (c : CausaISBN)
  | valueError (c : CausaValor)
  | usuarioInexistente
  | livroInexistente
deriving DecidableEq, Repr

/-- Seconds in a day; `timedelta(days = n)` adds `n * 86400` seconds. -/
def segundosPorDia : Int := 86400

/-- Number of days of a timedelta between two datetimes, as Python's
`.days` attribute computes it (floor of the difference in days). -/
def diasEntre (fim inicio : Int) : Int :=
  Int.fdiv (fim - inicio) segundosPorDia

/-- A book record (`Livro`): catalog identifier, title, author,
availability flag. -/
structure Livro where
  isbn : String
  titulo : String
  autor : String
  disponivel : Bool
deriving DecidableEq, Repr

/-- Removal of hyphens and whitespace, the model of
`re.sub(r'[-\s]', '', isbn)`. -/
def limparIsbn (s : String) : String :=
  String.mk (s.data.filter (fun c => !(c = '-' || c.isWhitespace)))

/-- Python's `str.strip` with no argument: removal of leading and
trailing whitespace. -/
def strip (s : String) : String :=
  String.mk
    (((s.data.dropWhile Char.isWhitespace).reverse.dropWhile
      Char.isWhitespace).reverse)

/-- Python's `str.isdigit`: nonempty and consisting only of digits. -/
def ehDigitos (s : String) : Bool :=
  !s.isEmpty && s.data.all Char.isDigit

/-- The static ISBN validator `Livro._validar_isbn`: rejects the empty
string, then strips separators, then requires all digits and length
10 or 13; returns the cleaned identifier. -/
def Livro.validar_isbn (isbn : String) : Except BibError String :=
  if isbn.isEmpty then
    Except.error (BibError.isbnInvalido CausaISBN.vazio)
  else
    let isbn_limpo := limparIsbn isbn
    if !(ehDigitos isbn_limpo) then
      Except.error (BibError.isbnInvalido CausaISBN.naoDigitos)
    else if !(isbn_limpo.length = 10 || isbn_limpo.length = 13) then
      Except.error (BibError.isbnInvalido CausaISBN.tamanho)
    else
      Except.ok isbn_limpo

/-- The constructor `Livro.__init__` with the default `disponivel=True`:
validates the ISBN first, then rejects empty (after trimming) title and
author, and stores the trimmed title and author. -/
def Livro.init (isbn titulo autor : String) : Except BibError Livro :=
  match Livro.validar_isbn isbn with
  | Except.error e => Except.error e
  | Except.ok isbn_limpo =>
    if (strip titulo).isEmpty then
      Except.error (BibError.valueError CausaValor.tituloVazio)
    else if (strip autor).isEmpty then
      Except.error (BibError.valueError CausaValor.autorVazio)
    else
      Except.ok { isbn := isbn_limpo, titulo := strip titulo,
                  autor := strip autor, disponivel := true }

/-- The method `Livro.emprestar`: flips the availability flag to false and
reports success only when the book was available; otherwise reports
failure and leaves the book unchanged. -/
def Livro.emprestar (l : Livro) : Bool × Livro :=
  if l.disponivel then (true, { l with disponivel := false })
  else (false, l)

/-- The method `Livro.devolver`: unconditionally sets the availability
flag back to true. -/
def Livro.devolver (l : Livro) : Livro :=
  { l with disponivel := true }

/-- A user record (`Usuario`). -/
structure Usuario where
  user_id : String
  nome : String
  tipo : TipoUsuario
  status : StatusUsuario
  multa_total : ℚ
deriving DecidableEq, Repr

/-- The constructor `Usuario.__init__` with the default initial standing
`ATIVO` (the only standing the system ever constructs users with):
rejects empty (after trimming) id and name, stores them trimmed, and
starts the fee total at zero. -/
def Usuario.init (user_id nome : String) (tipo : TipoUsuario) :
    Except BibError Usuario :=
  if (strip user_id).isEmpty then
    Except.error (BibError.valueError CausaValor.userIdVazio)
  else if (strip nome).isEmpty then
    Except.error (BibError.valueError CausaValor.nomeVazio)
  else
    Except.ok { user_id := strip user_id, nome := strip nome, tipo := tipo,
                status := StatusUsuario.ativo, multa_total := 0 }

/-- The method `Usuario.pode_emprestar`: true exactly when the standing
is `ATIVO`. -/
def Usuario.pode_emprestar (u : Usuario) : Bool :=
  u.status = StatusUsuario.ativo

/-- The body of `Usuario.adicionar_multa` after the negativity guard:
adds the amount to the fee total and blocks the user when the new total
exceeds 50.0 while the standing is `ATIVO`. -/
def Usuario.adicionar_multa_corpo (u : Usuario) (valor : ℚ) : Usuario :=
  let total := u.multa_total + valor
  let status :=
    if total > 50 ∧ u.status = StatusUsuario.ativo then StatusUsuario.bloqueado
    else u.status
  { u with multa_total := total, status := status }

/-- The method `Usuario.adicionar_multa`: raises `ValueError` on a
negative amount, otherwise applies `adicionar_multa_corpo`. -/
def Usuario.adicionar_multa (u : Usuario) (valor : ℚ) :
    Except BibError Usuario :=
  if valor < 0 then Except.error (BibError.valueError CausaValor.multaNegativa)
  else Except.ok (u.adicionar_multa_corpo valor)

/-- Grace period for students, in days (`PRAZO_ESTUDANTE_DIAS`). -/
def PRAZO_ESTUDANTE_DIAS : Int := 7

/-- Grace period for faculty, in days (`PRAZO_PROFESSOR_DIAS`). -/
def PRAZO_PROFESSOR_DIAS : Int := 30

/-- Daily late-fee rate for students (`MULTA_ESTUDANTE_DIA`, 1.00). -/
def MULTA_ESTUDANTE_DIA : ℚ := 1

/-- Daily late-fee rate for faculty (`MULTA_PROFESSOR_DIA`, 0.50). -/
def MULTA_PROFESSOR_DIA : ℚ := 1 / 2

/-- A loan record (`Emprestimo`). The Python object holds references to
the `Usuario` and `Livro` objects of the registry; the model stores the
registry keys under which those objects live. -/
structure Emprestimo where
  usuario_id : String
  livro_isbn : String
  data_emprestimo : Int
  prazo_dias : Int
  data_vencimento : Int
  devolvido : Bool
  data_devolucao : Option Int
deriving DecidableEq, Repr

/-- The constructor `Emprestimo.__init__`: records the loan timestamp
(`datetime.now()`, passed in as `agora`), picks the grace period by the
user's category, and sets the due date to the loan timestamp plus the
grace period in days. -/
def Emprestimo.init (usuario : Usuario) (usuario_id livro_isbn : String)
    (agora : Int) : Emprestimo :=
  let prazo :=
    if usuario.tipo = TipoUsuario.estudante then PRAZO_ESTUDANTE_DIAS
    else PRAZO_PROFESSOR_DIAS
  { usuario_id := usuario_id, livro_isbn := livro_isbn,
    data_emprestimo := agora, prazo_dias := prazo,
    data_vencimento := agora + prazo * segundosPorDia,
    devolvido := false, data_devolucao := none }

/-- The method `Emprestimo.calcular_multa`: zero unless the loan is
returned with a recorded return date; otherwise the number of late days
(floored), zero fee when not positive, and late days times the
category's daily rate when positive. The user the loan references is
passed explicitly. -/
def Emprestimo.calcular_multa (e : Emprestimo) (usuario : Usuario) : ℚ :=
  match e.data_devolucao with
  | none => 0
  | some dataDev =>
    if !e.devolvido then 0
    else
      let dias_atraso := diasEntre dataDev e.data_vencimento
      if dias_atraso ≤ 0 then 0
      else if usuario.tipo = TipoUsuario.estudante then
        (dias_atraso : ℚ) * MULTA_ESTUDANTE_DIA
      else
        (dias_atraso : ℚ) * MULTA_PROFESSOR_DIA

/-- The method `Emprestimo.devolver_livro`, acting on the loan together
with the user and book objects it references: a no-op returning 0.0 when
already returned; otherwise records the return date (defaulting to
`datetime.now()`, passed as `agora`), marks the loan returned, makes the
book available again, computes the fee and, when positive, applies it
to the user (the positivity guard makes the negative-amount branch of
`adicionar_multa` unreachable, so its body is applied directly). -/
def Emprestimo.devolver_livro (e : Emprestimo) (usuario : Usuario)
    (livro : Livro) (dataDev : Option Int) (agora : Int) :
    ℚ × Emprestimo × Usuario × Livro :=
  if e.devolvido then (0, e, usuario, livro)
  else
    let d := dataDev.getD agora
    let e2 := { e with data_devolucao := some d, devolvido := true }
    let livro2 := livro.devolver
    let multa := e2.calcular_multa usuario
    let usuario2 :=
      if multa > 0 then usuario.adicionar_multa_corpo multa else usuario
    (multa, e2, usuario2, livro2)

example : Livro.validar_isbn "978-85-359-0277-2" = Except.ok "9788535902772" := by
  rfl

example : Livro.validar_isbn "123" =
    Except.error (BibError.isbnInvalido CausaISBN.tamanho) := by rfl

example :
    (Emprestimo.init ⟨"e1", "Ana", TipoUsuario.estudante,
      StatusUsuario.ativo, 0⟩ "e1" "9788535902772" 0).data_vencimento
      = 604800 := by decide

/-- The registry (`SistemaBiblioteca`): books keyed by cleaned ISBN,
users keyed by the raw id passed to `cadastrar_usuario`, and the loan
log in insertion order. -/
structure SistemaBiblioteca where
  livros : List (String × Livro)
  usuarios : List (String × Usuario)
  emprestimos : List Emprestimo
deriving DecidableEq, Repr

/-- The empty registry produced by `SistemaBiblioteca.__init__`. -/
def SistemaBiblioteca.init : SistemaBiblioteca :=
  { livros := [], usuarios := [], emprestimos := [] }

/-- In-place update of the object stored under a key, the model of
mutating a Python object that the dictionary maps the key to. -/
def atualizar {α : Type} (k : String) (v : α) (m : List (String × α)) :
    List (String × α) :=
  m.map (fun p => if p.1 = k then (k, v) else p)

/-- The method `SistemaBiblioteca.cadastrar_livro`: constructs the book
(its constructor may raise), then raises `ValueError` if the cleaned
ISBN is already a key, otherwise stores the book under the cleaned ISBN
and returns True. The re-raise in the except clause of the source
propagates the same exception. -/
def SistemaBiblioteca.cadastrar_livro (sys : SistemaBiblioteca)
    (isbn titulo autor : String) : Except BibError Bool × SistemaBiblioteca :=
  match Livro.init isbn titulo autor with
  | Except.error e => (Except.error e, sys)
  | Except.ok livro =>
    if (List.lookup livro.isbn sys.livros).isSome then
      (Except.error (BibError.valueError CausaValor.livroJaExiste), sys)
    else
      (Except.ok true,
       { sys with livros := sys.livros ++ [(livro.isbn, livro)] })

/-- The method `SistemaBiblioteca.cadastrar_usuario`: raises `ValueError`
if the raw id is already a key, then constructs the user (whose
constructor may raise), stores it under the raw id and returns True. -/
def SistemaBiblioteca.cadastrar_usuario (sys : SistemaBiblioteca)
    (user_id nome : String) (tipo : TipoUsuario) :
    Except BibError Bool × SistemaBiblioteca :=
  if (List.lookup user_id sys.usuarios).isSome then
    (Except.error (BibError.valueError CausaValor.usuarioJaExiste), sys)
  else
    match Usuario.init user_id nome tipo with
    | Except.error e => (Except.error e, sys)
    | Except.ok usuario =>
      (Except.ok true,
       { sys with usuarios := sys.usuarios ++ [(user_id, usuario)] })

/-- The method `SistemaBiblioteca.realizar_emprestimo`: raises
`UsuarioInexistenteError` when the user id is not a key, then
`LivroInexistenteError` when the raw ISBN argument is not a key, then
`ValueError` when the user cannot borrow, then `ValueError` when
`Livro.emprestar` reports failure (in which case the book object was not
changed); otherwise stores the mutated book back, constructs the loan
with the current timestamp `agora` and appends it to the loan log. -/
def SistemaBiblioteca.realizar_emprestimo (sys : SistemaBiblioteca)
    (user_id isbn : String) (agora : Int) :
    Except BibError Emprestimo × SistemaBiblioteca :=
  match List.lookup user_id sys.usuarios with
  | none => (Except.error BibError.usuarioInexistente, sys)
  | some usuario =>
    match List.lookup isbn sys.livros with
    | none => (Except.error BibError.livroInexistente, sys)
    | some livro =>
      if !usuario.pode_emprestar then
        (Except.error (BibError.valueError CausaValor.naoElegivel), sys)
      else
        match livro.emprestar with
        | (false, _) =>
          (Except.error (BibError.valueError CausaValor.indisponivel), sys)
        | (true, livro2) =>
          let emprestimo := Emprestimo.init usuario user_id isbn agora
          (Except.ok emprestimo,
           { sys with livros := atualizar isbn livro2 sys.livros,
                      emprestimos := sys.emprestimos ++ [emprestimo] })

/-- A call of `devolver_livro` on the loan at position `i` of the loan
log, the model of invoking the method on a loan object the caller holds:
the loan, the user and the book it references are read, the method body
runs, and the three mutated objects are written back. Out-of-range
positions and dangling references cannot arise from the system's own
operations and are modelled as a no-op returning 0.0. -/
def SistemaBiblioteca.devolver (sys : SistemaBiblioteca) (i : Nat)
    (dataDev : Option Int) (agora : Int) : ℚ × SistemaBiblioteca :=
  match sys.emprestimos[i]? with
  | none => (0, sys)
  | some e =>
    match List.lookup e.usuario_id sys.usuarios,
          List.lookup e.livro_isbn sys.livros with
    | some usuario, some livro =>
      let r := e.devolver_livro usuario livro dataDev agora
      (r.1,
       { livros := atualizar e.livro_isbn r.2.2.2 sys.livros,
         usuarios := atualizar e.usuario_id r.2.2.1 sys.usuarios,
         emprestimos := sys.emprestimos.set i r.2.1 })
    | _, _ => (0, sys)

/-- A call of `adicionar_multa` on the user stored under `user_id`, the
model of invoking the method on a registry user object: on success the
mutated user is written back, on the `ValueError` of a negative amount
the user is unchanged. Unknown ids are a no-op. -/
def SistemaBiblioteca.acrescentar_multa (sys : SistemaBiblioteca)
    (user_id : String) (valor : ℚ) : SistemaBiblioteca :=
  match List.lookup user_id sys.usuarios with
  | none => sys
  | some usuario =>
    match usuario.adicionar_multa valor with
    | Except.error _ => sys
    | Except.ok usuario2 =>
      { sys with usuarios := atualizar user_id usuario2 sys.usuarios }

/-- The method `SistemaBiblioteca.listar_emprestimos_pendentes`: the
(user name, book title, due date) triples of the unreturned loans, in
insertion order; names and titles are read through the references. -/
def SistemaBiblioteca.listar_emprestimos_pendentes (sys : SistemaBiblioteca) :
    List (Option String × Option String × Int) :=
  (sys.emprestimos.filter (fun e => !e.devolvido)).map (fun e =>
    ((List.lookup e.usuario_id sys.usuarios).map Usuario.nome,
     (List.lookup e.livro_isbn sys.livros).map Livro.titulo,
     e.data_vencimento))

/-- One step of the system: any public operation, called with any
arguments, moving the state to whatever state the operation returns
(on an exception the state component returned is the unchanged one). -/
inductive Step : SistemaBiblioteca → SistemaBiblioteca → Prop where
  | cadastrarLivro (sys : SistemaBiblioteca) (isbn titulo autor : String) :
      Step sys (sys.cadastrar_livro isbn titulo autor).2
  | cadastrarUsuario (sys : SistemaBiblioteca) (user_id nome : String)
      (tipo : TipoUsuario) :
      Step sys (sys.cadastrar_usuario user_id nome tipo).2
  | realizarEmprestimo (sys : SistemaBiblioteca) (user_id isbn : String)
      (agora : Int) :
      Step sys (sys.realizar_emprestimo user_id isbn agora).2
  | devolverLivro (sys : SistemaBiblioteca) (i : Nat) (dataDev : Option Int)
      (agora : Int) :
      Step sys (sys.devolver i dataDev agora).2
  | acrescentarMulta (sys : SistemaBiblioteca) (user_id : String) (valor : ℚ) :
      Step sys (sys.acrescentar_multa user_id valor)

/-- States reachable from the empty registry by finitely many steps. -/
inductive Reachable : SistemaBiblioteca → Prop where
  | init : Reachable SistemaBiblioteca.init
  | step {sys sys2 : SistemaBiblioteca} :
      Reachable sys → Step sys sys2 → Reachable sys2

/-- Unfolding equation for association-list lookup with a
propositional-equality test. -/
theorem lookup_cons_eqn {α : Type} (k : String) (p : String × α)
    (m : List (String × α)) :
    List.lookup k (p :: m) = if k = p.1 then some p.2 else List.lookup k m := by
  cases p with
  | mk a b =>
    show (match k == a with
      | true => some b
      | false => List.lookup k m) = _
    by_cases h : k = a
    · simp [h]
    · simp [beq_false_of_ne h, h]

/-- Lookup in an extended association list is unchanged on keys the
prefix already resolves. -/
theorem lookup_append_of_isSome {α : Type} {k : String}
    {m : List (String × α)} (l : List (String × α))
    (h : (List.lookup k m).isSome) :
    List.lookup k (m ++ l) = List.lookup k m := by
  induction m with
  | nil => simp at h
  | cons p m ih =>
    rw [List.cons_append, lookup_cons_eqn, lookup_cons_eqn]
    by_cases hk : k = p.1
    · simp [hk]
    · rw [lookup_cons_eqn, if_neg hk] at h
      simp only [hk, if_false]
      exact ih h

/-- Lookup in an extended association list falls through to the suffix
on keys the prefix does not resolve. -/
theorem lookup_append_of_none {α : Type} {k : String}
    {m : List (String × α)} (l : List (String × α))
    (h : List.lookup k m = none) :
    List.lookup k (m ++ l) = List.lookup k l := by
  induction m with
  | nil => simp
  | cons p m ih =>
    rw [lookup_cons_eqn] at h
    by_cases hk : k = p.1
    · rw [if_pos hk] at h
      exact absurd h (by simp)
    · rw [if_neg hk] at h
      rw [List.cons_append, lookup_cons_eqn, if_neg hk]
      exact ih h

/-- Updating a key rewrites exactly the value that key resolves to. -/
theorem lookup_atualizar_self {α : Type} (k : String) (v : α)
    (m : List (String × α)) :
    List.lookup k (atualizar k v m) = (List.lookup k m).map (fun _ => v) := by
  induction m with
  | nil => simp [atualizar]
  | cons p m ih =>
    simp only [atualizar, List.map_cons]
    by_cases hpk : p.1 = k
    · rw [if_pos hpk, lookup_cons_eqn, lookup_cons_eqn, if_pos hpk.symm]
      simp
    · rw [if_neg hpk, lookup_cons_eqn, lookup_cons_eqn]
      by_cases hk : k = p.1
      · exact absurd hk.symm hpk
      · rw [if_neg hk, if_neg hk]
        exact ih

/-- Updating one key leaves lookups of other keys unchanged. -/
theorem lookup_atualizar_ne {α : Type} {k2 k : String} (v : α)
    (m : List (String × α)) (h : k2 ≠ k) :
    List.lookup k2 (atualizar k v m) = List.lookup k2 m := by
  induction m with
  | nil => simp [atualizar]
  | cons p m ih =>
    simp only [atualizar, List.map_cons]
    by_cases hpk : p.1 = k
    · rw [if_pos hpk, lookup_cons_eqn, lookup_cons_eqn]
      rw [if_neg (by simpa using h), if_neg (fun hc => h (hpk ▸ hc))]
      exact ih
    · rw [if_neg hpk, lookup_cons_eqn, lookup_cons_eqn]
      by_cases hk2 : k2 = p.1
      · rw [if_pos hk2, if_pos hk2]
      · rw [if_neg hk2, if_neg hk2]
        exact ih

/-- Updating a key preserves which keys resolve. -/
theorem isSome_lookup_atualizar {α : Type} (k2 k : String) (v : α)
    (m : List (String × α)) :
    (List.lookup k2 (atualizar k v m)).isSome = (List.lookup k2 m).isSome := by
  by_cases h : k2 = k
  · subst h
    rw [lookup_atualizar_self]
    cases List.lookup k2 m <;> rfl
  · rw [lookup_atualizar_ne v m h]

/-- Registering a book never changes the user registry. -/
theorem cadastrar_livro_usuarios (sys : SistemaBiblioteca)
    (isbn titulo autor : String) :
    (sys.cadastrar_livro isbn titulo autor).2.usuarios = sys.usuarios := by
  unfold SistemaBiblioteca.cadastrar_livro
  cases Livro.init isbn titulo autor with
  | error e => rfl
  | ok livro =>
    dsimp only
    split
    · rfl
    · rfl

/-- Registering a book never changes the loan log. -/
theorem cadastrar_livro_emprestimos (sys : SistemaBiblioteca)
    (isbn titulo autor : String) :
    (sys.cadastrar_livro isbn titulo autor).2.emprestimos = sys.emprestimos := by
  unfold SistemaBiblioteca.cadastrar_livro
  cases Livro.init isbn titulo autor with
  | error e => rfl
  | ok livro =>
    dsimp only
    split
    · rfl
    · rfl

/-- Registering a user never changes the book registry. -/
theorem cadastrar_usuario_livros (sys : SistemaBiblioteca)
    (user_id nome : String) (tipo : TipoUsuario) :
    (sys.cadastrar_usuario user_id nome tipo).2.livros = sys.livros := by
  unfold SistemaBiblioteca.cadastrar_usuario
  split
  · rfl
  · cases Usuario.init user_id nome tipo with
    | error e => rfl
    | ok usuario => rfl

/-- Registering a user never changes the loan log. -/
theorem cadastrar_usuario_emprestimos (sys : SistemaBiblioteca)
    (user_id nome : String) (tipo : TipoUsuario) :
    (sys.cadastrar_usuario user_id nome tipo).2.emprestimos = sys.emprestimos := by
  unfold SistemaBiblioteca.cadastrar_usuario
  split
  · rfl
  · cases Usuario.init user_id nome tipo with
    | error e => rfl
    | ok usuario => rfl

/-- Opening a loan never changes the user registry. -/
theorem realizar_emprestimo_usuarios (sys : SistemaBiblioteca)
    (user_id isbn : String) (agora : Int) :
    (sys.realizar_emprestimo user_id isbn agora).2.usuarios = sys.usuarios := by
  unfold SistemaBiblioteca.realizar_emprestimo
  cases List.lookup user_id sys.usuarios with
  | none => rfl
  | some usuario =>
    cases List.lookup isbn sys.livros with
    | none => rfl
    | some livro =>
      dsimp only
      split
      · rfl
      · rcases hl : livro.emprestar with ⟨b, livro2⟩
        cases b
        · rfl
        · rfl

/-- Fee accrual never changes the user registry's fee standing from
Blocked back to anything else (the helper body keeps a blocked user
blocked). -/
theorem adicionar_multa_corpo_bloqueado (u : Usuario) (valor : ℚ)
    (h : u.status = StatusUsuario.bloqueado) :
    (u.adicionar_multa_corpo valor).status = StatusUsuario.bloqueado := by
  unfold Usuario.adicionar_multa_corpo
  rw [h]
  simp

/-- The user component of a return keeps a blocked user blocked. -/
theorem devolver_livro_usuario_bloqueado (e : Emprestimo) (u : Usuario)
    (l : Livro) (dataDev : Option Int) (agora : Int)
    (h : u.status = StatusUsuario.bloqueado) :
    (e.devolver_livro u l dataDev agora).2.2.1.status =
      StatusUsuario.bloqueado := by
  unfold Emprestimo.devolver_livro
  split
  · exact h
  · dsimp only
    split
    · exact adicionar_multa_corpo_bloqueado u _ h
    · exact h

/-- Registering a user preserves every existing user lookup. -/
theorem cadastrar_usuario_lookup_mono (sys : SistemaBiblioteca)
    (user_id nome : String) (tipo : TipoUsuario) (uid : String) (u : Usuario)
    (hu : List.lookup uid sys.usuarios = some u) :
    List.lookup uid (sys.cadastrar_usuario user_id nome tipo).2.usuarios =
      some u := by
  unfold SistemaBiblioteca.cadastrar_usuario
  split
  · exact hu
  · cases Usuario.init user_id nome tipo with
    | error e => exact hu
    | ok usuario =>
      dsimp only
      rw [lookup_append_of_isSome _ (by rw [hu]; rfl)]
      exact hu

/-- Returning a loan keeps every blocked user blocked. -/
theorem devolver_lookup_bloqueado (sys : SistemaBiblioteca) (i : Nat)
    (dataDev : Option Int) (agora : Int) (uid : String) (u u2 : Usuario)
    (hu : List.lookup uid sys.usuarios = some u)
    (hu2 : List.lookup uid (sys.devolver i dataDev agora).2.usuarios = some u2)
    (hb : u.status = StatusUsuario.bloqueado) :
    u2.status = StatusUsuario.bloqueado := by
  unfold SistemaBiblioteca.devolver at hu2
  cases hi : sys.emprestimos[i]? with
  | none =>
    rw [hi, hu] at hu2
    rw [← Option.some.inj hu2]
    exact hb
  | some e =>
    rw [hi] at hu2
    dsimp only at hu2
    cases hus : List.lookup e.usuario_id sys.usuarios with
    | none =>
      rw [hus] at hu2
      cases hlv : List.lookup e.livro_isbn sys.livros with
      | none =>
        rw [hlv, hu] at hu2
        rw [← Option.some.inj hu2]
        exact hb
      | some livro =>
        rw [hlv, hu] at hu2
        rw [← Option.some.inj hu2]
        exact hb
    | some usuario =>
      rw [hus] at hu2
      cases hlv : List.lookup e.livro_isbn sys.livros with
      | none =>
        rw [hlv, hu] at hu2
        rw [← Option.some.inj hu2]
        exact hb
      | some livro =>
        rw [hlv] at hu2
        dsimp only at hu2
        by_cases hid : uid = e.usuario_id
        · subst hid
          rw [lookup_atualizar_self, hu] at hu2
          have husu : usuario = u := Option.some.inj (hus.symm.trans hu)
          rw [← Option.some.inj hu2]
          exact devolver_livro_usuario_bloqueado e usuario livro dataDev agora
            (husu ▸ hb)
        · rw [lookup_atualizar_ne _ _ hid, hu] at hu2
          rw [← Option.some.inj hu2]
          exact hb

/-- Direct fee accrual on a registry user keeps every blocked user
blocked. -/
theorem acrescentar_multa_lookup_bloqueado (sys : SistemaBiblioteca)
    (user_id : String) (valor : ℚ) (uid : String) (u u2 : Usuario)
    (hu : List.lookup uid sys.usuarios = some u)
    (hu2 : List.lookup uid (sys.acrescentar_multa user_id valor).usuarios =
      some u2)
    (hb : u.status = StatusUsuario.bloqueado) :
    u2.status = StatusUsuario.bloqueado := by
  unfold SistemaBiblioteca.acrescentar_multa at hu2
  cases hus : List.lookup user_id sys.usuarios with
  | none =>
    rw [hus, hu] at hu2
    rw [← Option.some.inj hu2]
    exact hb
  | some usuario =>
    rw [hus] at hu2
    dsimp only at hu2
    cases ham : usuario.adicionar_multa valor with
    | error e =>
      rw [ham, hu] at hu2
      rw [← Option.some.inj hu2]
      exact hb
    | ok usuario2 =>
      rw [ham] at hu2
      dsimp only at hu2
      by_cases hid : uid = user_id
      · subst hid
        rw [lookup_atualizar_self, hu] at hu2
        have husu : usuario = u := Option.some.inj (hus.symm.trans hu)
        have hcorpo : usuario2 = usuario.adicionar_multa_corpo valor := by
          unfold Usuario.adicionar_multa at ham
          by_cases hneg : valor < 0
          · rw [if_pos hneg] at ham
            exact absurd ham (by simp)
          · rw [if_neg hneg] at ham
            exact (Except.ok.inj ham).symm
        rw [← Option.some.inj hu2, hcorpo]
        exact adicionar_multa_corpo_bloqueado usuario valor (husu ▸ hb)
      · rw [lookup_atualizar_ne _ _ hid, hu] at hu2
        rw [← Option.some.inj hu2]
        exact hb

/-- C1: for every user in the registry of any reachable state,
`pode_emprestar` returns true if and only if the user's standing is
`ATIVO`. -/
theorem claim_C1_pode_emprestar_sse_ativo (sys : SistemaBiblioteca)
    (_hr : Reachable sys) (uid : String) (u : Usuario)
    (_hu : List.lookup uid sys.usuarios = some u) :
    u.pode_emprestar = true ↔ u.status = StatusUsuario.ativo := by
  simp [Usuario.pode_emprestar]

/-- Witness for C1 at the state reached by registering one student. -/
theorem claim_C1_witness :
    (Usuario.mk "est001" "Joao" TipoUsuario.estudante StatusUsuario.ativo
      0).pode_emprestar = true ↔
    (Usuario.mk "est001" "Joao" TipoUsuario.estudante StatusUsuario.ativo
      0).status = StatusUsuario.ativo :=
  claim_C1_pode_emprestar_sse_ativo
    (SistemaBiblioteca.init.cadastrar_usuario "est001" "Joao"
      TipoUsuario.estudante).2
    (Reachable.step Reachable.init
      (Step.cadastrarUsuario SistemaBiblioteca.init "est001" "Joao"
        TipoUsuario.estudante))
    "est001" _ (by decide)

/-- C2: a loan's due date is the loan timestamp plus 7 days for a
student and plus 30 days for a faculty member. -/
theorem claim_C2_data_vencimento (u : Usuario) (uid isbn : String)
    (agora : Int) :
    (u.tipo = TipoUsuario.estudante →
      (Emprestimo.init u uid isbn agora).data_vencimento =
        agora + 7 * 86400) ∧
    (u.tipo = TipoUsuario.professor →
      (Emprestimo.init u uid isbn agora).data_vencimento =
        agora + 30 * 86400) := by
  constructor
  · intro h
    simp [Emprestimo.init, h, PRAZO_ESTUDANTE_DIAS, segundosPorDia]
  · intro h
    simp [Emprestimo.init, h, PRAZO_PROFESSOR_DIAS, segundosPorDia]

/-- Witness for C2 at one student loan and one faculty loan. -/
theorem claim_C2_witness :
    (Emprestimo.init
      ⟨"est001", "Joao", TipoUsuario.estudante, StatusUsuario.ativo, 0⟩
      "est001" "9788575222683" 0).data_vencimento = 0 + 7 * 86400 ∧
    (Emprestimo.init
      ⟨"prof001", "Silva", TipoUsuario.professor, StatusUsuario.ativo, 0⟩
      "prof001" "9788535902772" 1000).data_vencimento = 1000 + 30 * 86400 :=
  ⟨(claim_C2_data_vencimento _ "est001" "9788575222683" 0).1 rfl,
   (claim_C2_data_vencimento _ "prof001" "9788535902772" 1000).2 rfl⟩

/-- C6: returning an already-returned loan, with any timestamp, yields
fee 0.0 and leaves the loan, the user and the book exactly as they
were. -/
theorem claim_C6_devolucao_idempotente (e : Emprestimo) (u : Usuario)
    (l : Livro) (dataDev : Option Int) (agora : Int)
    (h : e.devolvido = true) :
    e.devolver_livro u l dataDev agora = (0, e, u, l) := by
  unfold Emprestimo.devolver_livro
  rw [h]
  simp

/-- Witness for C6 at a concrete already-returned loan. -/
theorem claim_C6_witness :
    Emprestimo.devolver_livro
      ⟨"est001", "9788575222683", 0, 7, 604800, true, some 604800⟩
      ⟨"est001", "Joao", TipoUsuario.estudante, StatusUsuario.ativo, 0⟩
      ⟨"9788575222683", "Python Fluente", "Luciano Ramalho", true⟩
      (some 999999999) 12345 =
    (0, ⟨"est001", "9788575222683", 0, 7, 604800, true, some 604800⟩,
     ⟨"est001", "Joao", TipoUsuario.estudante, StatusUsuario.ativo, 0⟩,
     ⟨"9788575222683", "Python Fluente", "Luciano Ramalho", true⟩) :=
  claim_C6_devolucao_idempotente _ _ _ _ _ rfl

/-- C5: a negative accrual amount raises `ValueError` and changes
nothing; a non-negative amount is added to the fee total, and the
resulting standing is Blocked exactly when the user was already Blocked
or was Active with a new total above 50.0; and no step of the system
ever moves a user's standing from Blocked back to anything else. -/
theorem claim_C5_adicionar_multa :
    (∀ (u : Usuario) (v : ℚ), v < 0 →
      u.adicionar_multa v =
        Except.error (BibError.valueError CausaValor.multaNegativa)) ∧
    (∀ (u : Usuario) (v : ℚ), 0 ≤ v →
      ∃ u2, u.adicionar_multa v = Except.ok u2 ∧
        u2.multa_total = u.multa_total + v ∧
        (u2.status = StatusUsuario.bloqueado ↔
          (u.multa_total + v > 50 ∧ u.status = StatusUsuario.ativo) ∨
            u.status = StatusUsuario.bloqueado)) ∧
    (∀ sys sys2, Step sys sys2 → ∀ uid u u2,
      List.lookup uid sys.usuarios = some u →
      List.lookup uid sys2.usuarios = some u2 →
      u.status = StatusUsuario.bloqueado →
      u2.status = StatusUsuario.bloqueado) := by
  refine ⟨?_, ?_, ?_⟩
  · intro u v h
    unfold Usuario.adicionar_multa
    rw [if_pos h]
  · intro u v h
    refine ⟨u.adicionar_multa_corpo v, ?_, rfl, ?_⟩
    · unfold Usuario.adicionar_multa
      rw [if_neg (not_lt.mpr h)]
    · unfold Usuario.adicionar_multa_corpo
      dsimp only
      by_cases hc : u.multa_total + v > 50 ∧ u.status = StatusUsuario.ativo
      · rw [if_pos hc]
        simp [hc]
      · rw [if_neg hc]
        constructor
        · intro hb
          exact Or.inr hb
        · rintro (h1 | h2)
          · exact absurd h1 hc
          · exact h2
  · intro sys sys2 hstep uid u u2 hu hu2 hb
    cases hstep with
    | cadastrarLivro isbn titulo autor =>
      rw [cadastrar_livro_usuarios, hu] at hu2
      rw [← Option.some.inj hu2]
      exact hb
    | cadastrarUsuario user_id nome tipo =>
      rw [cadastrar_usuario_lookup_mono sys user_id nome tipo uid u hu] at hu2
      rw [← Option.some.inj hu2]
      exact hb
    | realizarEmprestimo user_id isbn agora =>
      rw [realizar_emprestimo_usuarios, hu] at hu2
      rw [← Option.some.inj hu2]
      exact hb
    | devolverLivro i dataDev agora =>
      exact devolver_lookup_bloqueado sys i dataDev agora uid u u2 hu hu2 hb
    | acrescentarMulta user_id valor =>
      exact acrescentar_multa_lookup_bloqueado sys user_id valor uid u u2 hu
        hu2 hb

/-- Witness for C5: a negative accrual rejected, a 30.00 accrual on a
user with 25.00 on record crossing the threshold, and a blocked user
staying blocked across a concrete accrual step. -/
theorem claim_C5_witness :
    ((Usuario.mk "e1" "A" TipoUsuario.estudante StatusUsuario.ativo
        0).adicionar_multa (-1) =
      Except.error (BibError.valueError CausaValor.multaNegativa)) ∧
    (∃ u2, (Usuario.mk "e1" "A" TipoUsuario.estudante StatusUsuario.ativo
        25).adicionar_multa 30 = Except.ok u2 ∧
      u2.multa_total = 25 + 30 ∧
      (u2.status = StatusUsuario.bloqueado ↔
        ((25 : ℚ) + 30 > 50 ∧ StatusUsuario.ativo = StatusUsuario.ativo) ∨
          StatusUsuario.ativo = StatusUsuario.bloqueado)) ∧
    (Usuario.mk "u1" "B" TipoUsuario.estudante StatusUsuario.bloqueado
      60).status = StatusUsuario.bloqueado := by
  refine ⟨?_, ?_, ?_⟩
  · exact claim_C5_adicionar_multa.1 _ (-1) (by norm_num)
  · exact claim_C5_adicionar_multa.2.1 _ 30 (by norm_num)
  · exact claim_C5_adicionar_multa.2.2
      ⟨[], [("u1", Usuario.mk "u1" "B" TipoUsuario.estudante
        StatusUsuario.bloqueado 60)], []⟩ _
      (Step.cadastrarLivro _ "9788535902772" "Clean Code" "Robert Martin")
      "u1"
      (Usuario.mk "u1" "B" TipoUsuario.estudante StatusUsuario.bloqueado 60)
      (Usuario.mk "u1" "B" TipoUsuario.estudante StatusUsuario.bloqueado 60)
      (by decide) (by decide) rfl

/-- A loan record as `devolver_livro` rewrites it: marked returned with
return timestamp `d`. -/
def Emprestimo.marcado (e : Emprestimo) (d : Int) : Emprestimo :=
  { e with data_devolucao := some d, devolvido := true }

/-- Unfolding of a return of a still-open loan: the loan is marked
returned with the given (or current) timestamp, the book is made
available, and the fee — as `calcular_multa` computes it on the updated
loan — is applied to the user exactly when positive. -/
theorem devolver_livro_aberto (e : Emprestimo) (u : Usuario) (l : Livro)
    (dataDev : Option Int) (agora : Int) (h : e.devolvido = false) :
    e.devolver_livro u l dataDev agora =
      ((e.marcado (dataDev.getD agora)).calcular_multa u,
       e.marcado (dataDev.getD agora),
       (if (e.marcado (dataDev.getD agora)).calcular_multa u > 0 then
          u.adicionar_multa_corpo
            ((e.marcado (dataDev.getD agora)).calcular_multa u)
        else u),
       l.devolver) := by
  unfold Emprestimo.devolver_livro Emprestimo.marcado
  rw [h]
  simp

/-- The fee of a loan marked returned at timestamp `d`: zero when not
late, otherwise whole late days times the category rate. -/
theorem calcular_multa_atualizado (e : Emprestimo) (u : Usuario) (d : Int) :
    (e.marcado d).calcular_multa u =
      (if diasEntre d e.data_vencimento ≤ 0 then 0
       else if u.tipo = TipoUsuario.estudante then
         (diasEntre d e.data_vencimento : ℚ) * MULTA_ESTUDANTE_DIA
       else (diasEntre d e.data_vencimento : ℚ) * MULTA_PROFESSOR_DIA) := by
  unfold Emprestimo.calcular_multa Emprestimo.marcado
  simp

/-- C3: on the first return of an open loan at timestamp `t`, the fee is
zero when the whole-days lateness is not positive, and lateness times
1.00 (student) or 0.50 (faculty) otherwise; the fee is added to the
user's accumulated total, and a positive fee is applied through the fee
accrual body (which may block the user). -/
theorem claim_C3_multa_primeira_devolucao (e : Emprestimo) (u : Usuario)
    (l : Livro) (t agora : Int) (h : e.devolvido = false) :
    (diasEntre t e.data_vencimento ≤ 0 →
      (e.devolver_livro u l (some t) agora).1 = 0) ∧
    (0 < diasEntre t e.data_vencimento →
      (u.tipo = TipoUsuario.estudante →
        (e.devolver_livro u l (some t) agora).1 =
          (diasEntre t e.data_vencimento : ℚ) * 1) ∧
      (u.tipo = TipoUsuario.professor →
        (e.devolver_livro u l (some t) agora).1 =
          (diasEntre t e.data_vencimento : ℚ) * (1 / 2))) ∧
    ((e.devolver_livro u l (some t) agora).2.2.1.multa_total =
      u.multa_total + (e.devolver_livro u l (some t) agora).1) ∧
    (0 < (e.devolver_livro u l (some t) agora).1 →
      (e.devolver_livro u l (some t) agora).2.2.1 =
        u.adicionar_multa_corpo (e.devolver_livro u l (some t) agora).1) := by
  rw [devolver_livro_aberto e u l (some t) agora h]
  rw [Option.getD_some]
  rw [calcular_multa_atualizado]
  dsimp only
  by_cases hL : diasEntre t e.data_vencimento ≤ 0
  · rw [if_pos hL]
    refine ⟨fun _ => rfl, fun hpos => absurd hpos (not_lt.mpr hL), ?_, ?_⟩
    · rw [if_neg (lt_irrefl 0)]
      simp
    · intro h0
      exact absurd h0 (lt_irrefl 0)
  · rw [if_neg hL]
    have hLpos : 0 < diasEntre t e.data_vencimento := not_le.mp hL
    have hQ : (0 : ℚ) < (diasEntre t e.data_vencimento : ℚ) := by
      exact_mod_cast hLpos
    have hfee : 0 <
        (if u.tipo = TipoUsuario.estudante then
          (diasEntre t e.data_vencimento : ℚ) * MULTA_ESTUDANTE_DIA
        else (diasEntre t e.data_vencimento : ℚ) * MULTA_PROFESSOR_DIA) := by
      by_cases ht : u.tipo = TipoUsuario.estudante
      · rw [if_pos ht]
        have : (0 : ℚ) < MULTA_ESTUDANTE_DIA := by norm_num [MULTA_ESTUDANTE_DIA]
        exact mul_pos hQ this
      · rw [if_neg ht]
        have : (0 : ℚ) < MULTA_PROFESSOR_DIA := by norm_num [MULTA_PROFESSOR_DIA]
        exact mul_pos hQ this
    refine ⟨fun hc => absurd hLpos (not_lt.mpr hc), ?_, ?_, ?_⟩
    · intro _
      refine ⟨?_, ?_⟩
      · intro ht
        rw [if_pos ht, MULTA_ESTUDANTE_DIA]
      · intro ht
        have hne : ¬ u.tipo = TipoUsuario.estudante := by
          rw [ht]
          intro hc
          exact absurd hc (by decide)
        rw [if_neg hne, MULTA_PROFESSOR_DIA]
    · rw [if_pos hfee]
      rfl
    · intro _
      rw [if_pos hfee]

/-- Witness for C3: three days late for a student pays 3.00 at rate
1.00, five days late for a faculty member pays at rate 0.50. -/
theorem claim_C3_witness :
    ((Emprestimo.mk "est001" "9788575222683" 0 7 604800 false
        none).devolver_livro
      (Usuario.mk "est001" "Joao" TipoUsuario.estudante StatusUsuario.ativo 0)
      (Livro.mk "9788575222683" "Python Fluente" "Luciano Ramalho" false)
      (some 864000) 0).1 = (diasEntre 864000 604800 : ℚ) * 1 ∧
    ((Emprestimo.mk "prof001" "9788535902772" 0 30 2592000 false
        none).devolver_livro
      (Usuario.mk "prof001" "Silva" TipoUsuario.professor StatusUsuario.ativo 0)
      (Livro.mk "9788535902772" "Clean Code" "Robert Martin" false)
      (some 3024000) 0).1 = (diasEntre 3024000 2592000 : ℚ) * (1 / 2) :=
  ⟨((claim_C3_multa_primeira_devolucao _ _ _ 864000 0 rfl).2.1
      (by decide)).1 rfl,
   ((claim_C3_multa_primeira_devolucao _ _ _ 3024000 0 rfl).2.1
      (by decide)).2 rfl⟩

/-- The catalog-identifier format the validator accepts: after removal
of hyphens and whitespace, a nonempty all-digit string of length 10 or
13. -/
def isbnBemFormado (isbn : String) : Prop :=
  ehDigitos (limparIsbn isbn) = true ∧
  ((limparIsbn isbn).length = 10 ∨ (limparIsbn isbn).length = 13)

instance (isbn : String) : Decidable (isbnBemFormado isbn) := by
  unfold isbnBemFormado
  infer_instance

/-- A well-formed identifier passes the validator, which returns the
cleaned string. -/
theorem validar_isbn_ok (isbn : String) (hbf : isbnBemFormado isbn) :
    Livro.validar_isbn isbn = Except.ok (limparIsbn isbn) := by
  unfold Livro.validar_isbn
  have hne : isbn.isEmpty = false := by
    cases hemp : isbn.isEmpty with
    | false => rfl
    | true =>
      rw [(String.isEmpty_iff isbn).mp hemp] at hbf
      exact absurd hbf.1 (by decide)
  rw [hne]
  dsimp only
  rw [hbf.1]
  have hlen : ((limparIsbn isbn).length = 10 ||
      (limparIsbn isbn).length = 13) = true := by
    rcases hbf.2 with h | h
    · simp [h]
    · simp [h]
  rw [hlen]
  simp

/-- An ill-formed identifier is rejected by the validator with an
`ISBNInvalidoError`. -/
theorem validar_isbn_erro (isbn : String) (hbf : ¬ isbnBemFormado isbn) :
    ∃ c, Livro.validar_isbn isbn =
      Except.error (BibError.isbnInvalido c) := by
  unfold Livro.validar_isbn
  cases hemp : isbn.isEmpty with
  | true => exact ⟨CausaISBN.vazio, by simp⟩
  | false =>
    dsimp only
    cases hdig : ehDigitos (limparIsbn isbn) with
    | false => exact ⟨CausaISBN.naoDigitos, by simp⟩
    | true =>
      cases hlen : ((limparIsbn isbn).length = 10 ||
          (limparIsbn isbn).length = 13) with
      | false => exact ⟨CausaISBN.tamanho, by simp⟩
      | true =>
        exfalso
        apply hbf
        refine ⟨hdig, ?_⟩
        rcases Bool.or_eq_true_iff.mp hlen with h | h
        · exact Or.inl (by simpa using h)
        · exact Or.inr (by simpa using h)

/-- C7: with nonempty (after trimming) title and author, registration
of a book succeeds exactly when the identifier is well formed; an ill-
formed identifier is always rejected with an `ISBNInvalidoError`; a
well-formed identifier with an empty title or author is rejected with
the corresponding `ValueError`. -/
theorem claim_C7_validacao_cadastro (isbn titulo autor : String) :
    ((strip titulo).isEmpty = false → (strip autor).isEmpty = false →
      ((∃ l, Livro.init isbn titulo autor = Except.ok l) ↔
        isbnBemFormado isbn)) ∧
    (¬ isbnBemFormado isbn →
      ∃ c, Livro.init isbn titulo autor =
        Except.error (BibError.isbnInvalido c)) ∧
    (isbnBemFormado isbn →
      ((strip titulo).isEmpty = true ∨ (strip autor).isEmpty = true) →
      ∃ c, Livro.init isbn titulo autor =
        Except.error (BibError.valueError c) ∧
        (c = CausaValor.tituloVazio ∨ c = CausaValor.autorVazio)) := by
  refine ⟨?_, ?_, ?_⟩
  · intro ht ha
    constructor
    · rintro ⟨l, hl⟩
      unfold Livro.init at hl
      cases hv : Livro.validar_isbn isbn with
      | error e => rw [hv] at hl; exact absurd hl (by simp)
      | ok limpo =>
        by_contra hbf
        rcases validar_isbn_erro isbn hbf with ⟨c, hc⟩
        rw [hc] at hv
        exact absurd hv (by simp)
    · intro hbf
      refine ⟨⟨limparIsbn isbn, strip titulo, strip autor, true⟩, ?_⟩
      unfold Livro.init
      rw [validar_isbn_ok isbn hbf]
      dsimp only
      rw [ht, ha]
      simp
  · intro hbf
    rcases validar_isbn_erro isbn hbf with ⟨c, hc⟩
    refine ⟨c, ?_⟩
    unfold Livro.init
    rw [hc]
  · intro hbf hempty
    unfold Livro.init
    rw [validar_isbn_ok isbn hbf]
    dsimp only
    cases ht : (strip titulo).isEmpty with
    | true => exact ⟨CausaValor.tituloVazio, by simp, Or.inl rfl⟩
    | false =>
      cases ha : (strip autor).isEmpty with
      | true => exact ⟨CausaValor.autorVazio, by simp, Or.inr rfl⟩
      | false =>
        exfalso
        rcases hempty with h | h
        · rw [ht] at h; exact absurd h (by decide)
        · rw [ha] at h; exact absurd h (by decide)

/-- Witness for C7: a hyphenated 13-digit identifier registers, a
9-digit identifier is rejected as an invalid ISBN, and an empty title
with a valid identifier is rejected as an invalid argument. -/
theorem claim_C7_witness :
    ((∃ l, Livro.init "978-85-359-0277-2" "Clean Code" "Robert Martin" =
        Except.ok l) ↔ isbnBemFormado "978-85-359-0277-2") ∧
    (∃ c, Livro.init "123456789" "Livro Teste" "Autor Teste" =
      Except.error (BibError.isbnInvalido c)) ∧
    (∃ c, Livro.init "9788535902772" "   " "Robert Martin" =
      Except.error (BibError.valueError c) ∧
      (c = CausaValor.tituloVazio ∨ c = CausaValor.autorVazio)) :=
  ⟨(claim_C7_validacao_cadastro "978-85-359-0277-2" "Clean Code"
      "Robert Martin").1 (by decide) (by decide),
   (claim_C7_validacao_cadastro "123456789" "Livro Teste" "Autor Teste").2.1
     (by decide),
   (claim_C7_validacao_cadastro "9788535902772" "   " "Robert Martin").2.2
     (by decide) (Or.inl (by decide))⟩

/-- C8: registering a book whose identifier normalizes to a key that is
already taken raises the duplicate-registration error and leaves the
registry — in particular the originally stored record with its title,
author and availability flag — untouched. -/
theorem claim_C8_cadastro_duplicado (sys : SistemaBiblioteca) (k : String)
    (b : Livro) (hreg : List.lookup k sys.livros = some b)
    (isbn2 titulo2 autor2 : String)
    (hnorm : limparIsbn isbn2 = k) (hbf : isbnBemFormado isbn2)
    (ht : (strip titulo2).isEmpty = false)
    (ha : (strip autor2).isEmpty = false) :
    sys.cadastrar_livro isbn2 titulo2 autor2 =
      (Except.error (BibError.valueError CausaValor.livroJaExiste), sys) ∧
    List.lookup k (sys.cadastrar_livro isbn2 titulo2 autor2).2.livros =
      some b := by
  have hinit : Livro.init isbn2 titulo2 autor2 =
      Except.ok ⟨limparIsbn isbn2, strip titulo2, strip autor2, true⟩ := by
    unfold Livro.init
    rw [validar_isbn_ok isbn2 hbf]
    dsimp only
    rw [ht, ha]
    simp
  have h1 : sys.cadastrar_livro isbn2 titulo2 autor2 =
      (Except.error (BibError.valueError CausaValor.livroJaExiste), sys) := by
    unfold SistemaBiblioteca.cadastrar_livro
    rw [hinit]
    dsimp only
    rw [hnorm, hreg]
    simp
  exact ⟨h1, by rw [h1]; exact hreg⟩

/-- Witness for C8: after registering the Clean Code record, a second
registration under a hyphenated spelling of the same identifier fails
and the stored record is unchanged. -/
theorem claim_C8_witness :
    (SistemaBiblioteca.init.cadastrar_livro "9788535902772" "Clean Code"
        "Robert Martin").2.cadastrar_livro "978-85-359-0277-2" "Outro Titulo"
        "Outro Autor" =
      (Except.error (BibError.valueError CausaValor.livroJaExiste),
       (SistemaBiblioteca.init.cadastrar_livro "9788535902772" "Clean Code"
         "Robert Martin").2) ∧
    List.lookup "9788535902772"
      ((SistemaBiblioteca.init.cadastrar_livro "9788535902772" "Clean Code"
          "Robert Martin").2.cadastrar_livro "978-85-359-0277-2"
          "Outro Titulo" "Outro Autor").2.livros =
      some (Livro.mk "9788535902772" "Clean Code" "Robert Martin" true) :=
  claim_C8_cadastro_duplicado _ "9788535902772"
    (Livro.mk "9788535902772" "Clean Code" "Robert Martin" true)
    (by decide) "978-85-359-0277-2" "Outro Titulo" "Outro Autor"
    (by decide) (by decide) (by decide) (by decide)

/-- C4: opening a loan resolves the user first and the book second,
failing without any state change when either is missing; with both
resolved it fails when the user cannot borrow, fails when the book has
no free copy, and otherwise records the loan and marks the book
unavailable. -/
theorem claim_C4_realizar_emprestimo (sys : SistemaBiblioteca)
    (user_id isbn : String) (agora : Int) :
    (List.lookup user_id sys.usuarios = none →
      sys.realizar_emprestimo user_id isbn agora =
        (Except.error BibError.usuarioInexistente, sys)) ∧
    (∀ u, List.lookup user_id sys.usuarios = some u →
      List.lookup isbn sys.livros = none →
      sys.realizar_emprestimo user_id isbn agora =
        (Except.error BibError.livroInexistente, sys)) ∧
    (∀ u l, List.lookup user_id sys.usuarios = some u →
      List.lookup isbn sys.livros = some l →
      u.pode_emprestar = false →
      sys.realizar_emprestimo user_id isbn agora =
        (Except.error (BibError.valueError CausaValor.naoElegivel), sys)) ∧
    (∀ u l, List.lookup user_id sys.usuarios = some u →
      List.lookup isbn sys.livros = some l →
      u.pode_emprestar = true → l.disponivel = false →
      sys.realizar_emprestimo user_id isbn agora =
        (Except.error (BibError.valueError CausaValor.indisponivel), sys)) ∧
    (∀ u l, List.lookup user_id sys.usuarios = some u →
      List.lookup isbn sys.livros = some l →
      u.pode_emprestar = true → l.disponivel = true →
      sys.realizar_emprestimo user_id isbn agora =
        (Except.ok (Emprestimo.init u user_id isbn agora),
         { sys with
             livros := atualizar isbn { l with disponivel := false }
               sys.livros,
             emprestimos := sys.emprestimos ++
               [Emprestimo.init u user_id isbn agora] })) := by
  refine ⟨?_, ?_, ?_, ?_, ?_⟩
  · intro h
    unfold SistemaBiblioteca.realizar_emprestimo
    rw [h]
  · intro u hu hb
    unfold SistemaBiblioteca.realizar_emprestimo
    rw [hu, hb]
  · intro u l hu hl hp
    unfold SistemaBiblioteca.realizar_emprestimo
    rw [hu, hl]
    dsimp only
    rw [hp]
    simp
  · intro u l hu hl hp hd
    unfold SistemaBiblioteca.realizar_emprestimo Livro.emprestar
    rw [hu, hl]
    dsimp only
    rw [hp, hd]
    simp
  · intro u l hu hl hp hd
    unfold SistemaBiblioteca.realizar_emprestimo Livro.emprestar
    rw [hu, hl]
    dsimp only
    rw [hp, hd]
    simp

/-- Witness for C4: with one registered book and one registered faculty
user, an unknown user id fails with the user error and an unchanged
state, an unknown identifier fails with the book error and an unchanged
state, and the valid pair opens and records a loan. -/
theorem claim_C4_witness :
    (((SistemaBiblioteca.init.cadastrar_livro "9788535902772" "Clean Code"
        "Robert Martin").2.cadastrar_usuario "prof001" "Dr. Silva"
        TipoUsuario.professor).2.realizar_emprestimo "user999"
        "9788535902772" 0 =
      (Except.error BibError.usuarioInexistente,
       ((SistemaBiblioteca.init.cadastrar_livro "9788535902772" "Clean Code"
         "Robert Martin").2.cadastrar_usuario "prof001" "Dr. Silva"
         TipoUsuario.professor).2)) ∧
    (((SistemaBiblioteca.init.cadastrar_livro "9788535902772" "Clean Code"
        "Robert Martin").2.cadastrar_usuario "prof001" "Dr. Silva"
        TipoUsuario.professor).2.realizar_emprestimo "prof001" "isbn999" 0 =
      (Except.error BibError.livroInexistente,
       ((SistemaBiblioteca.init.cadastrar_livro "9788535902772" "Clean Code"
         "Robert Martin").2.cadastrar_usuario "prof001" "Dr. Silva"
         TipoUsuario.professor).2)) ∧
    (((SistemaBiblioteca.init.cadastrar_livro "9788535902772" "Clean Code"
        "Robert Martin").2.cadastrar_usuario "prof001" "Dr. Silva"
        TipoUsuario.professor).2.realizar_emprestimo "prof001"
        "9788535902772" 0 =
      (Except.ok (Emprestimo.init
         (Usuario.mk "prof001" "Dr. Silva" TipoUsuario.professor
           StatusUsuario.ativo 0) "prof001" "9788535902772" 0),
       { ((SistemaBiblioteca.init.cadastrar_livro "9788535902772"
             "Clean Code" "Robert Martin").2.cadastrar_usuario "prof001"
             "Dr. Silva" TipoUsuario.professor).2 with
           livros := atualizar "9788535902772"
             { Livro.mk "9788535902772" "Clean Code" "Robert Martin" true
                 with disponivel := false }
             ((SistemaBiblioteca.init.cadastrar_livro "9788535902772"
               "Clean Code" "Robert Martin").2.cadastrar_usuario "prof001"
               "Dr. Silva" TipoUsuario.professor).2.livros,
           emprestimos :=
             ((SistemaBiblioteca.init.cadastrar_livro "9788535902772"
               "Clean Code" "Robert Martin").2.cadastrar_usuario "prof001"
               "Dr. Silva" TipoUsuario.professor).2.emprestimos ++
             [Emprestimo.init
               (Usuario.mk "prof001" "Dr. Silva" TipoUsuario.professor
                 StatusUsuario.ativo 0) "prof001" "9788535902772" 0] })) := by
  refine ⟨?_, ?_, ?_⟩
  · exact (claim_C4_realizar_emprestimo _ "user999" "9788535902772" 0).1
      (by decide)
  · exact (claim_C4_realizar_emprestimo _ "prof001" "isbn999" 0).2.1
      (Usuario.mk "prof001" "Dr. Silva" TipoUsuario.professor
        StatusUsuario.ativo 0) (by decide) (by decide)
  · exact (claim_C4_realizar_emprestimo _ "prof001" "9788535902772" 0).2.2.2.2
      (Usuario.mk "prof001" "Dr. Silva" TipoUsuario.professor
        StatusUsuario.ativo 0)
      (Livro.mk "9788535902772" "Clean Code" "Robert Martin" true)
      (by decide) (by decide) (by decide) (by decide)

/-- Position lookup in a list extended by one element: a hit is either a
hit in the prefix or the appended element at the old length. -/
theorem getElem?_append_cases {α : Type} (L : List α) (a : α) (i : Nat)
    (x : α) (h : (L ++ [a])[i]? = some x) :
    (i < L.length ∧ L[i]? = some x) ∨ (i = L.length ∧ x = a) := by
  by_cases hi : i < L.length
  · rw [List.getElem?_append_left hi] at h
    exact Or.inl ⟨hi, h⟩
  · by_cases heq : i = L.length
    · subst heq
      rw [List.getElem?_concat_length] at h
      exact Or.inr ⟨rfl, (Option.some.inj h).symm⟩
    · have hlen : (L ++ [a]).length ≤ i := by
        simp only [List.length_append]
        simp only [List.length_cons, List.length_nil]
        omega
      rw [List.getElem?_eq_none_iff.mpr hlen] at h
      exact absurd h (by simp)

/-- Position lookup in a list with one position overwritten: a hit is
the new element at the overwritten position or an untouched element
elsewhere. -/
theorem getElem?_set_cases {α : Type} (L : List α) (i : Nat) (a : α)
    (j : Nat) (x : α) (hi : i < L.length) (h : (L.set i a)[j]? = some x) :
    (j = i ∧ x = a) ∨ (j ≠ i ∧ L[j]? = some x) := by
  by_cases hj : j = i
  · subst hj
    rw [List.getElem?_set_eq_of_lt a hi] at h
    exact Or.inl ⟨rfl, (Option.some.inj h).symm⟩
  · rw [List.getElem?_set_ne (fun hc => hj hc.symm)] at h
    exact Or.inr ⟨hj, h⟩

/-- Appending an entry under a fresh key does not change lookups of
other keys. -/
theorem lookup_append_single_ne {α : Type} {k k2 : String} (v : α)
    (m : List (String × α)) (h : k ≠ k2) :
    List.lookup k (m ++ [(k2, v)]) = List.lookup k m := by
  by_cases hs : (List.lookup k m).isSome
  · exact lookup_append_of_isSome _ hs
  · have hn : List.lookup k m = none := Option.not_isSome_iff_eq_none.mp hs
    rw [lookup_append_of_none _ hn, hn, lookup_cons_eqn, if_neg h]
    rfl

/-- Appending an entry under a previously absent key makes that key
resolve to the new entry. -/
theorem lookup_append_single_self {α : Type} (k : String) (v : α)
    (m : List (String × α)) (h : List.lookup k m = none) :
    List.lookup k (m ++ [(k, v)]) = some v := by
  rw [lookup_append_of_none _ h, lookup_cons_eqn, if_pos rfl]

/-- A return of an already-returned loan is a no-op returning 0.0. -/
theorem devolver_livro_ja_devolvido (e : Emprestimo) (u : Usuario)
    (l : Livro) (dataDev : Option Int) (agora : Int)
    (h : e.devolvido = true) :
    e.devolver_livro u l dataDev agora = (0, e, u, l) := by
  unfold Emprestimo.devolver_livro
  rw [h]
  simp

/-- What the validator guarantees about an accepted identifier. -/
theorem validar_isbn_ok_inv (isbn limpo : String)
    (h : Livro.validar_isbn isbn = Except.ok limpo) :
    limpo = limparIsbn isbn ∧ ehDigitos limpo = true ∧
      (limpo.length = 10 ∨ limpo.length = 13) := by
  unfold Livro.validar_isbn at h
  split at h
  · exact absurd h (by simp)
  · dsimp only at h
    split at h
    · exact absurd h (by simp)
    · next hdig =>
      split at h
      · exact absurd h (by simp)
      · next hlen =>
        have hlimpo : limpo = limparIsbn isbn := (Except.ok.inj h).symm
        subst hlimpo
        refine ⟨rfl, ?_, ?_⟩
        · simpa using hdig
        · by_cases h10 : (limparIsbn isbn).length = 10
          · exact Or.inl h10
          · by_cases h13 : (limparIsbn isbn).length = 13
            · exact Or.inr h13
            · exact absurd (by simp [h10, h13]) hlen

/-- What the book constructor guarantees about a constructed record. -/
theorem livro_init_campos (isbn titulo autor : String) (livro : Livro)
    (h : Livro.init isbn titulo autor = Except.ok livro) :
    livro.isbn = limparIsbn isbn ∧ livro.disponivel = true ∧
      ehDigitos livro.isbn = true := by
  unfold Livro.init at h
  cases hv : Livro.validar_isbn isbn with
  | error e => rw [hv] at h; exact absurd h (by simp)
  | ok limpo =>
    rw [hv] at h
    dsimp only at h
    obtain ⟨hcl, hdig, _⟩ := validar_isbn_ok_inv isbn limpo hv
    split at h
    · exact absurd h (by simp)
    · split at h
      · exact absurd h (by simp)
      · have hlv : livro = ⟨limpo, strip titulo, strip autor, true⟩ :=
          (Except.ok.inj h).symm
        subst hlv
        exact ⟨hcl, rfl, hdig⟩

/-- The availability invariant together with the bookkeeping facts that
make it inductive: every loan references a registered book, a book is
unavailable exactly when it has an open loan, and no two distinct open
loans reference the same book. -/
def InvariantDisponibilidade (sys : SistemaBiblioteca) : Prop :=
  (∀ (i : Nat) (e : Emprestimo), sys.emprestimos[i]? = some e →
    (List.lookup e.livro_isbn sys.livros).isSome = true) ∧
  (∀ (k : String) (b : Livro), List.lookup k sys.livros = some b →
    (b.disponivel = false ↔
      ∃ (i : Nat) (e : Emprestimo), sys.emprestimos[i]? = some e ∧
        e.devolvido = false ∧ e.livro_isbn = k)) ∧
  (∀ (i j : Nat) (ei ej : Emprestimo), sys.emprestimos[i]? = some ei →
    sys.emprestimos[j]? = some ej → ei.devolvido = false →
    ej.devolvido = false → ei.livro_isbn = ej.livro_isbn → i = j)

/-- The invariant only depends on the book lookups and the loan-log
positions. -/
theorem inv_congr (A B : SistemaBiblioteca)
    (hl : ∀ k, List.lookup k A.livros = List.lookup k B.livros)
    (he : ∀ i : Nat, A.emprestimos[i]? = B.emprestimos[i]?)
    (h : InvariantDisponibilidade B) : InvariantDisponibilidade A := by
  obtain ⟨h1, h2, h3⟩ := h
  refine ⟨?_, ?_, ?_⟩
  · intro i e hie
    rw [hl]
    exact h1 i e (by rw [← he i]; exact hie)
  · intro k b hkb
    rw [hl k] at hkb
    rw [h2 k b hkb]
    constructor
    · rintro ⟨i, e, hie, hd, hk⟩
      exact ⟨i, e, by rw [he i]; exact hie, hd, hk⟩
    · rintro ⟨i, e, hie, hd, hk⟩
      exact ⟨i, e, by rw [← he i]; exact hie, hd, hk⟩
  · intro i j ei ej hi hj hdi hdj hk
    exact h3 i j ei ej (by rw [← he i]; exact hi) (by rw [← he j]; exact hj)
      hdi hdj hk

/-- Direct fee accrual changes neither the book registry nor the loan
log. -/
theorem acrescentar_multa_livros_emprestimos (sys : SistemaBiblioteca)
    (user_id : String) (valor : ℚ) :
    (sys.acrescentar_multa user_id valor).livros = sys.livros ∧
    (sys.acrescentar_multa user_id valor).emprestimos = sys.emprestimos := by
  unfold SistemaBiblioteca.acrescentar_multa
  cases List.lookup user_id sys.usuarios with
  | none => exact ⟨rfl, rfl⟩
  | some usuario =>
    dsimp only
    cases usuario.adicionar_multa valor with
    | error e => exact ⟨rfl, rfl⟩
    | ok usuario2 => exact ⟨rfl, rfl⟩

/-- Registering a user preserves the availability invariant. -/
theorem inv_cadastrar_usuario (sys : SistemaBiblioteca)
    (user_id nome : String) (tipo : TipoUsuario)
    (h : InvariantDisponibilidade sys) :
    InvariantDisponibilidade (sys.cadastrar_usuario user_id nome tipo).2 := by
  apply inv_congr _ sys
  · intro k
    rw [cadastrar_usuario_livros]
  · intro i
    rw [cadastrar_usuario_emprestimos]
  · exact h

/-- Direct fee accrual preserves the availability invariant. -/
theorem inv_acrescentar_multa (sys : SistemaBiblioteca) (user_id : String)
    (valor : ℚ) (h : InvariantDisponibilidade sys) :
    InvariantDisponibilidade (sys.acrescentar_multa user_id valor) := by
  apply inv_congr _ sys
  · intro k
    rw [(acrescentar_multa_livros_emprestimos sys user_id valor).1]
  · intro i
    rw [(acrescentar_multa_livros_emprestimos sys user_id valor).2]
  · exact h

/-- Registering a book preserves the availability invariant: the new
record is available and, being new, has no loan referencing it. -/
theorem inv_cadastrar_livro (sys : SistemaBiblioteca)
    (isbn titulo autor : String) (h : InvariantDisponibilidade sys) :
    InvariantDisponibilidade (sys.cadastrar_livro isbn titulo autor).2 := by
  unfold SistemaBiblioteca.cadastrar_livro
  cases hinit : Livro.init isbn titulo autor with
  | error e => exact h
  | ok livro =>
    dsimp only
    by_cases hdup : (List.lookup livro.isbn sys.livros).isSome = true
    · rw [if_pos hdup]
      exact h
    · rw [if_neg hdup]
      have hnone : List.lookup livro.isbn sys.livros = none :=
        Option.not_isSome_iff_eq_none.mp (by simpa using hdup)
      obtain ⟨h1, h2, h3⟩ := h
      obtain ⟨-, hdisp, -⟩ := livro_init_campos isbn titulo autor livro hinit
      refine ⟨?_, ?_, ?_⟩
      · intro i e hie
        dsimp only at hie ⊢
        by_cases hk : e.livro_isbn = livro.isbn
        · rw [hk, lookup_append_single_self _ _ _ hnone]
          rfl
        · rw [lookup_append_single_ne _ _ hk]
          exact h1 i e hie
      · intro k b hkb
        dsimp only at hkb ⊢
        by_cases hk : k = livro.isbn
        · subst hk
          rw [lookup_append_single_self _ _ _ hnone] at hkb
          rw [← Option.some.inj hkb, hdisp]
          constructor
          · intro hc
            exact absurd hc (by simp)
          · rintro ⟨i, e, hie, hd, hke⟩
            have := h1 i e hie
            rw [hke, hnone] at this
            exact absurd this (by simp)
        · rw [lookup_append_single_ne _ _ hk] at hkb
          exact h2 k b hkb
      · intro i j ei ej hi hj hdi hdj hk
        exact h3 i j ei ej hi hj hdi hdj hk

/-- The fields of a freshly constructed loan. -/
theorem emprestimo_init_campos (u : Usuario) (uid isbn : String)
    (agora : Int) :
    (Emprestimo.init u uid isbn agora).livro_isbn = isbn ∧
    (Emprestimo.init u uid isbn agora).devolvido = false := by
  unfold Emprestimo.init
  exact ⟨rfl, rfl⟩

/-- Opening a loan preserves the availability invariant: the book was
available, hence had no open loan; the new open loan is recorded as the
book becomes unavailable. -/
theorem inv_realizar_emprestimo (sys : SistemaBiblioteca)
    (user_id isbn : String) (agora : Int)
    (h : InvariantDisponibilidade sys) :
    InvariantDisponibilidade
      (sys.realizar_emprestimo user_id isbn agora).2 := by
  unfold SistemaBiblioteca.realizar_emprestimo
  cases hu : List.lookup user_id sys.usuarios with
  | none => exact h
  | some usuario =>
    dsimp only
    cases hl : List.lookup isbn sys.livros with
    | none => exact h
    | some livro =>
      dsimp only
      by_cases hp : (!usuario.pode_emprestar) = true
      · rw [if_pos hp]
        exact h
      · rw [if_neg hp]
        unfold Livro.emprestar
        cases hd : livro.disponivel with
        | false =>
          rw [if_neg (by simp)]
          exact h
        | true =>
          rw [if_pos rfl]
          dsimp only
          obtain ⟨h1, h2, h3⟩ := h
          obtain ⟨hek, hed⟩ :=
            emprestimo_init_campos usuario user_id isbn agora
          have hno : ¬ ∃ (i : Nat) (e : Emprestimo),
              sys.emprestimos[i]? = some e ∧ e.devolvido = false ∧
                e.livro_isbn = isbn := by
            intro hex
            have := (h2 isbn livro hl).mpr hex
            rw [hd] at this
            exact absurd this (by simp)
          refine ⟨?_, ?_, ?_⟩
          · intro i e hie
            dsimp only at hie ⊢
            rw [isSome_lookup_atualizar]
            rcases getElem?_append_cases _ _ _ _ hie with ⟨_, hin⟩ | ⟨_, hx⟩
            · exact h1 i e hin
            · rw [hx, hek, hl]
              rfl
          · intro k b hkb
            dsimp only at hkb ⊢
            by_cases hk : k = isbn
            · subst hk
              rw [lookup_atualizar_self, hl] at hkb
              have hb : b = { livro with disponivel := false } :=
                (Option.some.inj hkb).symm
              subst hb
              constructor
              · intro _
                refine ⟨sys.emprestimos.length,
                  Emprestimo.init usuario user_id k agora, ?_, hed, hek⟩
                exact List.getElem?_concat_length _ _
              · intro _
                rfl
            · rw [lookup_atualizar_ne _ _ hk] at hkb
              rw [h2 k b hkb]
              constructor
              · rintro ⟨i, e, hie, hde, hke⟩
                refine ⟨i, e, ?_, hde, hke⟩
                have hilen : i < sys.emprestimos.length := by
                  rcases List.getElem?_eq_some.mp hie with ⟨hlt, -⟩
                  exact hlt
                rw [List.getElem?_append_left hilen]
                exact hie
              · rintro ⟨i, e, hie, hde, hke⟩
                rcases getElem?_append_cases _ _ _ _ hie with ⟨_, hin⟩ |
                  ⟨_, hx⟩
                · exact ⟨i, e, hin, hde, hke⟩
                · rw [hx, hek] at hke
                  exact absurd hke.symm hk
          · intro i j ei ej hi hj hdi hdj hk
            dsimp only at hi hj
            rcases getElem?_append_cases _ _ _ _ hi with ⟨_, hiin⟩ |
              ⟨hieq, hix⟩
            · rcases getElem?_append_cases _ _ _ _ hj with ⟨_, hjin⟩ |
                ⟨hjeq, hjx⟩
              · exact h3 i j ei ej hiin hjin hdi hdj hk
              · rw [hjx, hek] at hk
                exact absurd ⟨i, ei, hiin, hdi, hk⟩ hno
            · rcases getElem?_append_cases _ _ _ _ hj with ⟨_, hjin⟩ |
                ⟨hjeq, hjx⟩
              · rw [hix, hek] at hk
                exact absurd ⟨j, ej, hjin, hdj, hk.symm⟩ hno
              · rw [hieq, hjeq]

/-- The fields of a loan marked returned. -/
theorem marcado_campos (e : Emprestimo) (d : Int) :
    (e.marcado d).livro_isbn = e.livro_isbn ∧
    (e.marcado d).devolvido = true :=
  ⟨rfl, rfl⟩

/-- Returning a loan preserves the availability invariant: the loan is
closed as the book becomes available again, and by uniqueness of open
loans no other open loan still references that book. -/
theorem inv_devolver (sys : SistemaBiblioteca) (i : Nat)
    (dataDev : Option Int) (agora : Int)
    (h : InvariantDisponibilidade sys) :
    InvariantDisponibilidade (sys.devolver i dataDev agora).2 := by
  unfold SistemaBiblioteca.devolver
  cases hi : sys.emprestimos[i]? with
  | none => exact h
  | some e =>
    dsimp only
    cases hus : List.lookup e.usuario_id sys.usuarios with
    | none =>
      cases hlv : List.lookup e.livro_isbn sys.livros with
      | none => exact h
      | some livro => exact h
    | some usuario =>
      cases hlv : List.lookup e.livro_isbn sys.livros with
      | none => exact h
      | some livro =>
        dsimp only
        have hilen : i < sys.emprestimos.length := by
          rcases List.getElem?_eq_some.mp hi with ⟨hlt, -⟩
          exact hlt
        cases hdev : e.devolvido with
        | true =>
          rw [devolver_livro_ja_devolvido e usuario livro dataDev agora hdev]
          refine inv_congr _ sys ?_ ?_ h
          · intro k
            dsimp only
            by_cases hk : k = e.livro_isbn
            · subst hk
              rw [lookup_atualizar_self, hlv]
              rfl
            · exact lookup_atualizar_ne _ _ hk
          · intro j
            dsimp only
            by_cases hj : j = i
            · subst hj
              rw [List.getElem?_set_eq_of_lt _ hilen, hi]
            · exact List.getElem?_set_ne (fun hc => hj hc.symm)
        | false =>
          rw [devolver_livro_aberto e usuario livro dataDev agora hdev]
          dsimp only
          obtain ⟨h1, h2, h3⟩ := h
          refine ⟨?_, ?_, ?_⟩
          · intro j x hjx
            rw [isSome_lookup_atualizar]
            rcases getElem?_set_cases _ i _ j x hilen hjx with ⟨-, hx⟩ |
              ⟨-, hold⟩
            · rw [hx, (marcado_campos e _).1, hlv]
              rfl
            · exact h1 j x hold
          · intro k b hkb
            by_cases hk : k = e.livro_isbn
            · subst hk
              rw [lookup_atualizar_self, hlv] at hkb
              have hb : b = livro.devolver := (Option.some.inj hkb).symm
              subst hb
              constructor
              · intro hc
                exact absurd hc (by simp [Livro.devolver])
              · rintro ⟨j, x, hjx, hdx, hkx⟩
                exfalso
                rcases getElem?_set_cases _ i _ j x hilen hjx with
                  ⟨-, hx⟩ | ⟨hne, hold⟩
                · rw [hx, (marcado_campos e _).2] at hdx
                  exact absurd hdx (by simp)
                · exact hne (h3 j i x e hold hi hdx hdev hkx)
            · rw [lookup_atualizar_ne _ _ hk] at hkb
              rw [h2 k b hkb]
              constructor
              · rintro ⟨j, x, hjx, hdx, hkx⟩
                by_cases hj : j = i
                · subst hj
                  have hx : x = e := Option.some.inj (hjx.symm.trans hi)
                  rw [hx] at hkx
                  exact absurd hkx.symm hk
                · refine ⟨j, x, ?_, hdx, hkx⟩
                  rw [List.getElem?_set_ne (fun hc => hj hc.symm)]
                  exact hjx
              · rintro ⟨j, x, hjx, hdx, hkx⟩
                rcases getElem?_set_cases _ i _ j x hilen hjx with
                  ⟨-, hx⟩ | ⟨-, hold⟩
                · rw [hx, (marcado_campos e _).1] at hkx
                  exact absurd hkx.symm hk
                · exact ⟨j, x, hold, hdx, hkx⟩
          · intro j1 j2 x1 x2 hj1 hj2 hd1 hd2 hkx
            rcases getElem?_set_cases _ i _ j1 x1 hilen hj1 with
              ⟨-, hx1⟩ | ⟨-, hold1⟩
            · rw [hx1, (marcado_campos e _).2] at hd1
              exact absurd hd1 (by simp)
            · rcases getElem?_set_cases _ i _ j2 x2 hilen hj2 with
                ⟨-, hx2⟩ | ⟨-, hold2⟩
              · rw [hx2, (marcado_campos e _).2] at hd2
                exact absurd hd2 (by simp)
              · exact h3 j1 j2 x1 x2 hold1 hold2 hd1 hd2 hkx

/-- The empty registry satisfies the availability invariant. -/
theorem inv_init : InvariantDisponibilidade SistemaBiblioteca.init := by
  refine ⟨?_, ?_, ?_⟩
  · intro i e hie
    simp [SistemaBiblioteca.init] at hie
  · intro k b hkb
    simp [SistemaBiblioteca.init, List.lookup] at hkb
  · intro i j ei ej hi hj hdi hdj hk
    simp [SistemaBiblioteca.init] at hi

/-- Every reachable state satisfies the availability invariant. -/
theorem reachable_inv (sys : SistemaBiblioteca) (hr : Reachable sys) :
    InvariantDisponibilidade sys := by
  induction hr with
  | init => exact inv_init
  | step hr2 hs ih =>
    cases hs with
    | cadastrarLivro isbn titulo autor =>
      exact inv_cadastrar_livro _ isbn titulo autor ih
    | cadastrarUsuario user_id nome tipo =>
      exact inv_cadastrar_usuario _ user_id nome tipo ih
    | realizarEmprestimo user_id isbn agora =>
      exact inv_realizar_emprestimo _ user_id isbn agora ih
    | devolverLivro i dataDev agora =>
      exact inv_devolver _ i dataDev agora ih
    | acrescentarMulta user_id valor =>
      exact inv_acrescentar_multa _ user_id valor ih

/-- C9: in every reachable state, a registered book's availability flag
is false exactly when the loan log holds an open loan referencing it. -/
theorem claim_C9_invariante_disponibilidade (sys : SistemaBiblioteca)
    (hr : Reachable sys) (k : String) (b : Livro)
    (h : List.lookup k sys.livros = some b) :
    b.disponivel = false ↔
      ∃ (i : Nat) (e : Emprestimo), sys.emprestimos[i]? = some e ∧
        e.devolvido = false ∧ e.livro_isbn = k :=
  (reachable_inv sys hr).2.1 k b h

/-- Witness for C9 at the reachable state with one book, one user and
one open loan: the book is unavailable and an open loan references
it. -/
theorem claim_C9_witness :
    (Livro.mk "9788535902772" "Clean Code" "Robert Martin"
        false).disponivel = false ↔
      ∃ (i : Nat) (e : Emprestimo),
        (((SistemaBiblioteca.init.cadastrar_livro "9788535902772"
            "Clean Code" "Robert Martin").2.cadastrar_usuario "prof001"
            "Dr. Silva"
            TipoUsuario.professor).2.realizar_emprestimo "prof001"
            "9788535902772" 0).2.emprestimos[i]? = some e ∧
          e.devolvido = false ∧ e.livro_isbn = "9788535902772" :=
  claim_C9_invariante_disponibilidade _
    (Reachable.step (Reachable.step (Reachable.step Reachable.init
      (Step.cadastrarLivro _ "9788535902772" "Clean Code" "Robert Martin"))
      (Step.cadastrarUsuario _ "prof001" "Dr. Silva" TipoUsuario.professor))
      (Step.realizarEmprestimo _ "prof001" "9788535902772" 0))
    "9788535902772"
    (Livro.mk "9788535902772" "Clean Code" "Robert Martin" false)
    (by decide)

/-- Every key of the book registry is a cleaned all-digit identifier. -/
def ChavesLivrosDigitos (sys : SistemaBiblioteca) : Prop :=
  ∀ (k : String) (b : Livro), List.lookup k sys.livros = some b →
    ehDigitos k = true

/-- Updating a value under an existing key introduces no new key. -/
theorem chaves_atualizar (m : List (String × Livro)) (key : String)
    (v : Livro)
    (h : ∀ (k : String) (b : Livro), List.lookup k m = some b →
      ehDigitos k = true)
    (k : String) (b : Livro)
    (hkb : List.lookup k (atualizar key v m) = some b) :
    ehDigitos k = true := by
  have hks : (List.lookup k m).isSome = true := by
    rw [← isSome_lookup_atualizar k key v m, hkb]
    rfl
  obtain ⟨b0, hb0⟩ := Option.isSome_iff_exists.mp hks
  exact h k b0 hb0

/-- Every step of the system keeps the book-registry keys all-digit. -/
theorem chaves_step (sys sys2 : SistemaBiblioteca) (hs : Step sys sys2)
    (h : ChavesLivrosDigitos sys) : ChavesLivrosDigitos sys2 := by
  cases hs with
  | cadastrarLivro isbn titulo autor =>
    intro k b hkb
    unfold SistemaBiblioteca.cadastrar_livro at hkb
    cases hinit : Livro.init isbn titulo autor with
    | error e =>
      rw [hinit] at hkb
      exact h k b hkb
    | ok livro =>
      rw [hinit] at hkb
      dsimp only at hkb
      split at hkb
      · exact h k b hkb
      · dsimp only at hkb
        by_cases hk : k = livro.isbn
        · subst hk
          exact (livro_init_campos isbn titulo autor livro hinit).2.2
        · rw [lookup_append_single_ne _ _ hk] at hkb
          exact h k b hkb
  | cadastrarUsuario user_id nome tipo =>
    intro k b hkb
    rw [cadastrar_usuario_livros] at hkb
    exact h k b hkb
  | realizarEmprestimo user_id isbn agora =>
    intro k b hkb
    unfold SistemaBiblioteca.realizar_emprestimo at hkb
    cases hu : List.lookup user_id sys.usuarios with
    | none =>
      rw [hu] at hkb
      exact h k b hkb
    | some usuario =>
      rw [hu] at hkb
      dsimp only at hkb
      cases hl : List.lookup isbn sys.livros with
      | none =>
        rw [hl] at hkb
        exact h k b hkb
      | some livro =>
        rw [hl] at hkb
        dsimp only at hkb
        split at hkb
        · exact h k b hkb
        · rcases he : livro.emprestar with ⟨bb, livro2⟩
          rw [he] at hkb
          cases bb with
          | false =>
            dsimp only at hkb
            exact h k b hkb
          | true =>
            dsimp only at hkb
            exact chaves_atualizar sys.livros isbn livro2 h k b hkb
  | devolverLivro i dataDev agora =>
    intro k b hkb
    unfold SistemaBiblioteca.devolver at hkb
    cases hi : sys.emprestimos[i]? with
    | none =>
      rw [hi] at hkb
      exact h k b hkb
    | some e =>
      rw [hi] at hkb
      dsimp only at hkb
      cases hus : List.lookup e.usuario_id sys.usuarios with
      | none =>
        rw [hus] at hkb
        cases hlv : List.lookup e.livro_isbn sys.livros with
        | none =>
          rw [hlv] at hkb
          exact h k b hkb
        | some livro =>
          rw [hlv] at hkb
          exact h k b hkb
      | some usuario =>
        rw [hus] at hkb
        cases hlv : List.lookup e.livro_isbn sys.livros with
        | none =>
          rw [hlv] at hkb
          exact h k b hkb
        | some livro =>
          rw [hlv] at hkb
          dsimp only at hkb
          exact chaves_atualizar sys.livros e.livro_isbn _ h k b hkb
  | acrescentarMulta user_id valor =>
    intro k b hkb
    rw [(acrescentar_multa_livros_emprestimos sys user_id valor).1] at hkb
    exact h k b hkb

/-- Every reachable state has only all-digit book-registry keys. -/
theorem reachable_chaves (sys : SistemaBiblioteca) (hr : Reachable sys) :
    ChavesLivrosDigitos sys := by
  induction hr with
  | init =>
    intro k b hkb
    simp [SistemaBiblioteca.init, List.lookup] at hkb
  | step hr2 hs ih =>
    exact chaves_step _ _ hs ih

/-- A string containing a hyphen or a whitespace character is not all
digits. -/
theorem ehDigitos_falso_com_separador (s : String)
    (hsep : ∃ c ∈ s.data, c = '-' ∨ c.isWhitespace = true) :
    ehDigitos s = false := by
  obtain ⟨c, hmem, hc⟩ := hsep
  have hnd : c.isDigit = false := by
    rcases hc with hc | hc
    · subst hc
      decide
    · simp [Char.isWhitespace] at hc
      rcases hc with ((hc | hc) | hc) | hc <;> subst hc <;> decide
  unfold ehDigitos
  have hall : s.data.all Char.isDigit = false := by
    rcases hx : s.data.all Char.isDigit with _ | _
    · rfl
    · exfalso
      have := List.all_eq_true.mp hx c hmem
      rw [hnd] at this
      exact absurd this (by simp)
  rw [hall]
  exact Bool.and_false _

/-- C10: after successfully registering a book whose raw identifier
contains a separator, the book is stored under the cleaned identifier,
yet opening a loan with the raw identifier (for any registered user)
fails with the book-not-found error, because the loan lookup uses the
raw string. -/
theorem claim_C10_busca_crua (sys : SistemaBiblioteca) (hr : Reachable sys)
    (isbn titulo autor : String) (sys2 : SistemaBiblioteca)
    (hcad : sys.cadastrar_livro isbn titulo autor = (Except.ok true, sys2))
    (hsep : ∃ c ∈ isbn.data, c = '-' ∨ c.isWhitespace = true)
    (user_id : String) (u : Usuario)
    (hu : List.lookup user_id sys2.usuarios = some u) (agora : Int) :
    (List.lookup (limparIsbn isbn) sys2.livros).isSome = true ∧
    sys2.realizar_emprestimo user_id isbn agora =
      (Except.error BibError.livroInexistente, sys2) := by
  have hchaves : ChavesLivrosDigitos sys2 := by
    have hstep := chaves_step sys (sys.cadastrar_livro isbn titulo autor).2
      (Step.cadastrarLivro sys isbn titulo autor)
      (reachable_chaves sys hr)
    rw [hcad] at hstep
    exact hstep
  have hlook : List.lookup isbn sys2.livros = none := by
    cases hx : List.lookup isbn sys2.livros with
    | none => rfl
    | some b =>
      have := hchaves isbn b hx
      rw [ehDigitos_falso_com_separador isbn hsep] at this
      exact absurd this (by simp)
  have hfirst : (List.lookup (limparIsbn isbn) sys2.livros).isSome = true := by
    unfold SistemaBiblioteca.cadastrar_livro at hcad
    cases hinit : Livro.init isbn titulo autor with
    | error e =>
      rw [hinit] at hcad
      dsimp only at hcad
      exact absurd (congrArg Prod.fst hcad) (by simp)
    | ok livro =>
      rw [hinit] at hcad
      dsimp only at hcad
      split at hcad
      · exact absurd (congrArg Prod.fst hcad) (by simp)
      · next hdup =>
        have hnone : List.lookup livro.isbn sys.livros = none :=
          Option.not_isSome_iff_eq_none.mp (by simpa using hdup)
        have hsys2 := congrArg Prod.snd hcad
        dsimp only at hsys2
        rw [← hsys2]
        dsimp only
        rw [← (livro_init_campos isbn titulo autor livro hinit).1,
          lookup_append_single_self _ _ _ hnone]
        rfl
  refine ⟨hfirst, ?_⟩
  unfold SistemaBiblioteca.realizar_emprestimo
  rw [hu]
  dsimp only
  rw [hlook]

/-- Witness for C10: a hyphenated identifier registers under its cleaned
form, and an open-loan attempt with the hyphenated spelling fails with
the book-not-found error. -/
theorem claim_C10_witness :
    (List.lookup (limparIsbn "978-85-359-0277-2")
      ((SistemaBiblioteca.init.cadastrar_usuario "prof001" "Dr. Silva"
        TipoUsuario.professor).2.cadastrar_livro "978-85-359-0277-2"
        "Clean Code" "Robert Martin").2.livros).isSome = true ∧
    ((SistemaBiblioteca.init.cadastrar_usuario "prof001" "Dr. Silva"
        TipoUsuario.professor).2.cadastrar_livro "978-85-359-0277-2"
        "Clean Code" "Robert Martin").2.realizar_emprestimo "prof001"
        "978-85-359-0277-2" 0 =
      (Except.error BibError.livroInexistente,
       ((SistemaBiblioteca.init.cadastrar_usuario "prof001" "Dr. Silva"
         TipoUsuario.professor).2.cadastrar_livro "978-85-359-0277-2"
         "Clean Code" "Robert Martin").2) :=
  claim_C10_busca_crua _
    (Reachable.step Reachable.init
      (Step.cadastrarUsuario SistemaBiblioteca.init "prof001" "Dr. Silva"
        TipoUsuario.professor))
    "978-85-359-0277-2" "Clean Code" "Robert Martin" _ rfl
    (by decide) "prof001"
    (Usuario.mk "prof001" "Dr. Silva" TipoUsuario.professor
      StatusUsuario.ativo 0)
    (by decide) 0
